import Mathlib

/-!
Verification of the multi-agent experience collectors of the MARL-mpr
repository (`multi_agent_collector.py` and
`collective_experience_collector.py`).

The per-tick reconciliation loops of `MultiAgentCollector.collect` and
`CollectiveExperienceCollector.collect` are embedded as pure Lean
functions.  External collaborators (policy, vectorized environment,
replay buffer) are abstracted: a collect run is driven by a stream of
per-tick lane outcomes (one `Lane` per active environment lane, holding
what `self.data` holds after `env.step` and the `update` call), and the
replay buffer is modelled as the list of `buffer.add` calls performed,
each call being the list of `(buffer_id, transition)` pairs passed to it.

Observations are abstracted to natural-number tokens; the episode
statistics read back from the buffer (`ep_rew`, `ep_len`, `ep_idx`) are
not modelled since no verified property observes them.
-/

/-- One transition record, as held by a row of `self.data` (and hence by
`temp_data` entries and by the batches passed to `buffer.add`).  The
`info` dictionary is modelled by its three observed components:
`env_id`, `environment_step` and `explicit_reset`. -/
structure TransRec where
  obsAgent : Nat
  obsVal : Nat
  act : Nat
  rew : Int
  obsNextAgent : Nat
  obsNextVal : Nat
  terminated : Bool
  truncated : Bool
  done : Bool
  infoEnvId : Nat
  infoEnvStep : Bool
  infoExplicitReset : Bool
deriving DecidableEq, Repr

/-- The per-lane data visible to the reconciliation pass on one tick:
the current observation's agent id and value, the action, and the
outcome of `env.step` for this lane (next observation, reward,
termination flags, info flags). -/
structure Lane where
  envId : Nat
  agentId : Nat
  obsVal : Nat
  act : Nat
  nextAgentId : Nat
  obsNextVal : Nat
  rew : Int
  terminated : Bool
  truncated : Bool
  envStep : Bool
  explicitReset : Bool
deriving DecidableEq, Repr

/-- `done = np.logical_or(terminated, truncated)` for one lane. -/
def laneDone (l : Lane) : Bool := l.terminated || l.truncated

/-- The full record `self.data[[env_idx]]` for one lane after the
`self.data.update(obs_next=..., rew=..., ...)` call. -/
def laneTrans (l : Lane) : TransRec :=
  { obsAgent := l.agentId
    obsVal := l.obsVal
    act := l.act
    rew := l.rew
    obsNextAgent := l.nextAgentId
    obsNextVal := l.obsNextVal
    terminated := l.terminated
    truncated := l.truncated
    done := laneDone l
    infoEnvId := l.envId
    infoEnvStep := l.envStep
    infoExplicitReset := l.explicitReset }

/-- Completing a pending `temp_data` record with the current tick's
outcome: the collector overwrites `rew`, `obs_next`, `terminated`,
`truncated`, `done` and `info` of the stored record with this tick's
lane data. -/
def completeWith (t : TransRec) (l : Lane) : TransRec :=
  { t with
    rew := l.rew
    obsNextAgent := l.nextAgentId
    obsNextVal := l.obsNextVal
    terminated := l.terminated
    truncated := l.truncated
    done := laneDone l
    infoEnvId := l.envId
    infoEnvStep := l.envStep
    infoExplicitReset := l.explicitReset }

/-- `temp_data[k] = t` (python dict assignment: inserts or replaces). -/
def mapPut (m : Nat → Option TransRec) (k : Nat) (t : TransRec) : Nat → Option TransRec :=
  fun j => if j = k then some t else m j

/-- `temp_data.pop(k)`. -/
def mapPop (m : Nat → Option TransRec) (k : Nat) : Nat → Option TransRec :=
  fun j => if j = k then none else m j

/-- Point update of a per-environment table. -/
def updEnv {α : Type} (f : Nat → α) (e : Nat) (v : α) : Nat → α :=
  fun j => if j = e then v else f j

/-- `sorted(...)` on a list of naturals (ascending). -/
def sortNat (xs : List Nat) : List Nat := List.insertionSort (· ≤ ·) xs

/-- Numpy boolean-mask filtering: keep the entries of `xs` whose
position is not listed in `removed` (the model of
`mask[removed] = False; xs = xs[mask]`). -/
def trimIdx (xs : List Nat) (removed : List Nat) : List Nat :=
  (xs.enum.filter (fun p => p.1 ∉ removed)).map Prod.snd

/-- Errors surfaced by a collect call: the initial configuration
asserts, the structural lane-count assert, and the in-loop asserts of
the collective variant (python `AssertionError` / `IndexError` /
`TypeError` are all fatal; the constructor records which check fired). -/
inductive CollectError where
  | bothTargets
  | neitherTarget
  | nonPositiveStep
  | nonPositiveEpisode
  | laneMismatch
  | agentIndex
  | dupFilling
  | dupBufferId
deriving DecidableEq, Repr

/-- The shared `collect` prologue (identical in both variants):
validates the step/episode targets and returns the initial
`ready_env_ids` together with the `n_step`-not-a-multiple warning flag.
`assert n_step > 0` / `assert n_episode > 0` are the non-positive
errors. -/
def checkArgs (envNum : Nat) (nStep nEpisode : Option Nat) :
    Except CollectError (List Nat × Bool) :=
  match nStep, nEpisode with
  | some _, some _ => .error .bothTargets
  | some n, none =>
    if n = 0 then .error .nonPositiveStep
    else .ok (List.range envNum, decide (n % envNum ≠ 0))
  | none, some m =>
    if m = 0 then .error .nonPositiveEpisode
    else .ok (List.range (min envNum m), false)
  | none, none => .error .neitherTarget

/-- The `while` loop's exit test:
`(n_step and step_count >= n_step) or (n_episode and episode_count >= n_episode)`. -/
def breakCond (nStep nEpisode : Option Nat) (stepCount episodeCount : Nat) : Bool :=
  (match nStep with
   | some n => decide (n ≤ stepCount)
   | none => false) ||
  (match nEpisode with
   | some m => decide (m ≤ episodeCount)
   | none => false)

/-! ### MultiAgentCollector -/

/-- Cross-tick state of `MultiAgentCollector.collect`: the pending
transition dictionary `temp_data` and `done_agents_per_env`. -/
structure MAState where
  tempData : Nat → Option TransRec
  doneAgents : Nat → List Nat

/-- The per-tick accumulators built by the lane loop of the multi-agent
variant: `experience_to_save`, `buffer_ids_to_save` and `done_envs`
(each `done_envs` entry is `(env_idx, env_id, len(experience_to_save)-1)`). -/
structure MATick where
  exps : List TransRec
  ids : List Nat
  doneEnvs : List (Nat × Nat × Int)
deriving Repr

/-- Loop-level context of a multi-agent collect run: counters, the
active `ready_env_ids`, and the buffer modelled as the list of
`buffer.add` calls (each a list of `(buffer_id, transition)` pairs). -/
structure MACtx where
  stepCount : Nat
  episodeCount : Nat
  readyEnvIds : List Nat
  addCalls : List (List (Nat × TransRec))
deriving Repr

/-- One iteration of the lane loop of `MultiAgentCollector.collect`
(body of the `for ... in zip(enumerate(self.data.info.env_id), ...)`
loop), for lane index `idx` holding lane data `l`, with `A` agents per
environment. -/
def multiLane (A : Nat) (sa : MAState × MATick) (idx : Nat) (l : Lane) :
    MAState × MATick :=
  let st := sa.1
  let a := sa.2
  let bid := l.envId * A + l.agentId
  let nbid := l.envId * A + l.nextAgentId
  let p1 :=
    match st.tempData nbid with
    | some t => (mapPop st.tempData nbid, a.exps ++ [completeWith t l], a.ids ++ [nbid])
    | none => (st.tempData, a.exps, a.ids)
  let td1 := p1.1
  let exps1 := p1.2.1
  let ids1 := p1.2.2
  let exps2 := if bid = nbid then exps1 ++ [laneTrans l] else exps1
  let ids2 := if bid = nbid then ids1 ++ [bid] else ids1
  let da1 :=
    if laneDone l = true then
      updEnv st.doneAgents l.envId (st.doneAgents l.envId ++ [nbid])
    else st.doneAgents
  let dE :=
    if laneDone l = true ∧ ((da1 l.envId).length = A ∨ l.explicitReset = true) then
      a.doneEnvs ++ [(idx, l.envId, (exps2.length : Int) - 1)]
    else a.doneEnvs
  let td2 :=
    if bid ≠ nbid ∧ (da1 l.envId).length ≠ A ∧ bid ∉ da1 l.envId then
      mapPut td1 bid (laneTrans l)
    else td1
  (⟨td2, da1⟩, ⟨exps2, ids2, dE⟩)

/-- The whole lane loop over the enumerated lanes of one tick. -/
def multiLanePass (A : Nat) : MAState × MATick → List (Nat × Lane) → MAState × MATick
  | sa, [] => sa
  | sa, (i, l) :: rest => multiLanePass A (multiLane A sa i l) rest

/-- `done_agents_per_env[env] = []` for every completed environment. -/
def clearEnvs (f : Nat → List Nat) (es : List Nat) : Nat → List Nat :=
  fun e => if e ∈ es then [] else f e

/-- One full iteration of the `while` loop of
`MultiAgentCollector.collect` after the environment step: the lane
loop, the conditional `buffer.add` flush, the `done_envs` episode
processing and the `n_episode` surplus trimming. -/
def multiTick (A : Nat) (nEpisode : Option Nat) (st : MAState) (ctx : MACtx)
    (lanes : List Lane) : MAState × MACtx :=
  let r := multiLanePass A (st, ⟨[], [], []⟩) lanes.enum
  let st1 := r.1
  let a := r.2
  let addCalls1 := if a.ids = [] then ctx.addCalls else ctx.addCalls ++ [a.ids.zip a.exps]
  let step1 := if a.ids = [] then ctx.stepCount else ctx.stepCount + a.ids.length
  let localIdxs := a.doneEnvs.map (·.1)
  let globalIds := a.doneEnvs.map (fun x => x.2.1)
  let ep1 := ctx.episodeCount + a.doneEnvs.length
  let st2 : MAState :=
    if a.doneEnvs = [] then st1
    else { st1 with doneAgents := clearEnvs st1.doneAgents globalIds }
  let ready1 :=
    if a.doneEnvs = [] then ctx.readyEnvIds
    else
      match nEpisode with
      | none => ctx.readyEnvIds
      | some ne =>
        let surplus : Int := (ctx.readyEnvIds.length : Int) - ((ne : Int) - (ep1 : Int))
        if 0 < surplus then trimIdx ctx.readyEnvIds (localIdxs.take surplus.toNat)
        else ctx.readyEnvIds
  let ep2 := if a.doneEnvs = [] then ctx.episodeCount else ep1
  (st2, ⟨step1, ep2, ready1, addCalls1⟩)

/-- The `while True` loop of the multi-agent variant, driven by a
finite stream of tick inputs (the loop stops when the step/episode
target is met, or when the stream is exhausted). -/
def multiLoop (A : Nat) (nStep nEpisode : Option Nat) :
    List (List Lane) → MAState → MACtx → Except CollectError (MAState × MACtx)
  | [], st, ctx => .ok (st, ctx)
  | lanes :: rest, st, ctx =>
    if lanes.length = ctx.readyEnvIds.length then
      let r := multiTick A nEpisode st ctx lanes
      if breakCond nStep nEpisode r.2.stepCount r.2.episodeCount then .ok r
      else multiLoop A nStep nEpisode rest r.1 r.2
    else .error .laneMismatch

/-- Initial cross-tick state (`temp_data = {}`,
`done_agents_per_env = {i: [] ...}`). -/
def initMAState : MAState := ⟨fun _ => none, fun _ => []⟩

/-- `MultiAgentCollector.collect`: target validation followed by the
collection loop; the returned boolean is the warning flag of the
non-multiple `n_step` case. -/
def multiCollect (envNum A : Nat) (nStep nEpisode : Option Nat)
    (ticks : List (List Lane)) : Except CollectError (Bool × MAState × MACtx) :=
  match checkArgs envNum nStep nEpisode with
  | .error e => .error e
  | .ok (ready, warned) =>
    match multiLoop A nStep nEpisode ticks initMAState ⟨0, 0, ready, []⟩ with
    | .error e => .error e
    | .ok (st, ctx) => .ok (warned, st, ctx)

/-- Did the run complete without a fatal assertion? -/
def mRunOk (r : Except CollectError (Bool × MAState × MACtx)) : Bool :=
  match r with
  | .ok _ => true
  | .error _ => false

/-- The `buffer.add` calls performed by a run. -/
def mRunCalls (r : Except CollectError (Bool × MAState × MACtx)) :
    List (List (Nat × TransRec)) :=
  match r with
  | .ok (_, _, c) => c.addCalls
  | .error _ => []

/-- The pending entry of `temp_data` at a slot after a run. -/
def mRunTemp (r : Except CollectError (Bool × MAState × MACtx)) (k : Nat) :
    Option TransRec :=
  match r with
  | .ok (_, s, _) => s.tempData k
  | .error _ => none

/-! ### CollectiveExperienceCollector -/

/-- Cross-tick state of `CollectiveExperienceCollector.collect`:
`temp_data`, `done_agents_per_env` and the `temp_buffer_data` tables
(`ready`, `filling`, `exps_to_save`, `buffer_ids_to_save`).  The numpy
arrays of length `agents_num` with sentinel `-1` are modelled as
`List (Option Nat)` with `none` for the sentinel. -/
structure CEState where
  tempData : Nat → Option TransRec
  doneAgents : Nat → List Nat
  ready : Nat → List (Option Nat)
  filling : Nat → List (Option Nat)
  expsToSave : Nat → List TransRec
  bufferIdsToSave : Nat → List Nat

/-- Per-tick accumulators of the collective lane loop:
`experience_to_save`, `buffer_ids_to_save` (the tick-level ones fed to
`buffer.add`), `done_envs`, and the running `step_count` (which this
variant increments inside the lane loop).  `snaps` and `blocks` are
verification instrumentation: they record, without influencing any
control flow, each `ready` snapshot taken (environment, non-sentinel
slot ids) and each joint-round block appended to the flush
(environment, slot ids). -/
structure CETick where
  exps : List TransRec
  ids : List Nat
  doneEnvs : List (Nat × Nat × Int)
  stepCount : Nat
  snaps : List (Nat × List Nat)
  blocks : List (Nat × List Nat)
deriving Repr

/-- Loop-level context of a collective collect run; `snaps` and
`blocks` carry the instrumentation histories across ticks. -/
structure CECtx where
  stepCount : Nat
  episodeCount : Nat
  readyEnvIds : List Nat
  addCalls : List (List (Nat × TransRec))
  snaps : List (Nat × List Nat)
  blocks : List (Nat × List Nat)
deriving Repr

/-- The fatal checks hit by one iteration of the collective lane loop,
in source order: the `filling` assert (an out-of-range agent index is
the equally fatal numpy `IndexError`), the `assert next_buffer_id not
in buffer_ids_to_save` of the pending-resolution branch, and the
`assert buffer_id not in buffer_ids_to_save` of the same-agent branch.
Every value an assert reads is derived from the pre-lane state, so the
checks are evaluated up front; `collectiveLaneCore` below is the
side-effecting remainder. -/
def collectiveLaneErr (A : Nat) (st : CEState) (l : Lane) : Option CollectError :=
  let e := l.envId
  let bid := e * A + l.agentId
  let nbid := e * A + l.nextAgentId
  match (st.filling e).get? l.agentId with
  | none => some .agentIndex
  | some (some _) => some .dupFilling
  | some none =>
    match st.tempData nbid with
    | some _ =>
      if nbid ∈ st.bufferIdsToSave e then some .dupBufferId
      else if bid = nbid ∧ bid ∈ st.bufferIdsToSave e ++ [nbid] then some .dupBufferId
      else none
    | none =>
      if bid = nbid ∧ bid ∈ st.bufferIdsToSave e then some .dupBufferId
      else none

/-- The filling write and turn-boundary snapshot of one collective
lane iteration: mark the acting agent's slot as filling (unless it is
already done), and on an `environment_step`/`explicit_reset` signal
with a non-empty filling array snapshot `filling` into `ready` and
clear `filling`.  Returns the environment's new `ready` array, its new
`filling` array, and the snapshot taken (if any). -/
def ceFillSnap (A : Nat) (st : CEState) (l : Lane) :
    List (Option Nat) × List (Option Nat) × Option (List Nat) :=
  let e := l.envId
  let bid := e * A + l.agentId
  let fill1 := (st.filling e).set l.agentId
    (if bid ∈ st.doneAgents e then none else some bid)
  if (l.envStep || l.explicitReset) && fill1.any Option.isSome then
    (fill1, List.replicate A (none : Option Nat), some (fill1.filterMap id))
  else (st.ready e, fill1, none)

/-- The pending-resolution and same-agent branches of one collective
lane iteration: complete a pending `temp_data` record for the next
slot with this tick's outcome, and on a same-agent consecutive turn
store-and-pop this tick's record directly.  Returns the new
`temp_data` together with the environment's extended `exps_to_save`
and `buffer_ids_to_save`. -/
def cePendSame (A : Nat) (st : CEState) (l : Lane) :
    (Nat → Option TransRec) × List TransRec × List Nat :=
  let e := l.envId
  let bid := e * A + l.agentId
  let nbid := e * A + l.nextAgentId
  let q :=
    match st.tempData nbid with
    | some t =>
      (mapPop st.tempData nbid, st.expsToSave e ++ [completeWith t l],
       st.bufferIdsToSave e ++ [nbid])
    | none => (st.tempData, st.expsToSave e, st.bufferIdsToSave e)
  if bid = nbid then
    (mapPop (mapPut q.1 bid (laneTrans l)) bid, q.2.1 ++ [laneTrans l], q.2.2 ++ [bid])
  else q

/-- The state and accumulator updates of one iteration of the lane loop
of `CollectiveExperienceCollector.collect` for lane index `idx` with
lane data `l` (the asserts are `collectiveLaneErr`).  The buffer-index
annotation added by `_add_extra_info` mutates only the `info.indices`
matrix (and optionally resynchronised rewards) of the flushed batch,
which no modelled field observes, and is omitted. -/
def collectiveLaneCore (A : Nat) (st : CEState) (a : CETick) (idx : Nat) (l : Lane) :
    CEState × CETick :=
  let e := l.envId
  let bid := e * A + l.agentId
  let nbid := e * A + l.nextAgentId
  let fs := ceFillSnap A st l
  let ready1 := fs.1
  let fill2 := fs.2.1
  let snaps1 :=
    match fs.2.2 with
    | some s => a.snaps ++ [(e, s)]
    | none => a.snaps
  let ps := cePendSame A st l
  let td2 := ps.1
  let exps2 := ps.2.1
  let ids2 := ps.2.2
  let sortedReady := sortNat (ready1.filterMap id)
  let flushQ : Bool := decide (sortedReady ≠ []) && decide (sortedReady = sortNat ids2)
  let exps3 := if flushQ then ([] : List TransRec) else exps2
  let ids3 := if flushQ then ([] : List Nat) else ids2
  let ready2 := if flushQ then List.replicate A (none : Option Nat) else ready1
  let tExps := if flushQ then a.exps ++ exps2 else a.exps
  let tIds := if flushQ then a.ids ++ ids2 else a.ids
  let step1 := if flushQ then a.stepCount + 1 else a.stepCount
  let blocks1 := if flushQ then a.blocks ++ [(e, ids2)] else a.blocks
  let da1 :=
    if laneDone l = true then
      updEnv st.doneAgents e (st.doneAgents e ++ [nbid])
    else st.doneAgents
  let dE :=
    if laneDone l = true ∧ ((da1 e).length = A ∨ l.explicitReset = true) then
      a.doneEnvs ++ [(idx, e, (tExps.length : Int) - 1)]
    else a.doneEnvs
  let td3 :=
    if bid ≠ nbid ∧ (da1 e).length ≠ A ∧ bid ∉ da1 e then
      mapPut td2 bid (laneTrans l)
    else td2
  (⟨td3, da1, updEnv st.ready e ready2, updEnv st.filling e fill2,
    updEnv st.expsToSave e exps3, updEnv st.bufferIdsToSave e ids3⟩,
   ⟨tExps, tIds, dE, step1, snaps1, blocks1⟩)

/-- One iteration of the collective lane loop: fatal assert or update. -/
def collectiveLane (A : Nat) (st : CEState) (a : CETick) (idx : Nat) (l : Lane) :
    Except CollectError (CEState × CETick) :=
  match collectiveLaneErr A st l with
  | some err => .error err
  | none => .ok (collectiveLaneCore A st a idx l)

/-- The whole collective lane loop over the enumerated lanes of one
tick. -/
def collectiveLanePass (A : Nat) :
    CEState → CETick → List (Nat × Lane) → Except CollectError (CEState × CETick)
  | st, a, [] => .ok (st, a)
  | st, a, (i, l) :: rest =>
    match collectiveLane A st a i l with
    | .error err => .error err
    | .ok (st1, a1) => collectiveLanePass A st1 a1 rest

/-- Episode teardown of the collective variant: for each completed
environment, clear `done_agents_per_env` and reset the `ready` and
`filling` arrays to all-sentinel. -/
def ceClear (A : Nat) (st : CEState) (es : List Nat) : CEState :=
  { st with
    doneAgents := fun e => if e ∈ es then [] else st.doneAgents e
    ready := fun e => if e ∈ es then List.replicate A none else st.ready e
    filling := fun e => if e ∈ es then List.replicate A none else st.filling e }

/-- One full iteration of the `while` loop of
`CollectiveExperienceCollector.collect`: lane loop, conditional
`buffer.add`, episode processing (with `env_ind_local` sorted
ascending before trimming) and `n_episode` surplus trimming. -/
def collectiveTick (A : Nat) (nEpisode : Option Nat) (st : CEState) (ctx : CECtx)
    (lanes : List Lane) : Except CollectError (CEState × CECtx) :=
  match collectiveLanePass A st ⟨[], [], [], ctx.stepCount, ctx.snaps, ctx.blocks⟩ lanes.enum with
  | .error e => .error e
  | .ok (st1, a) =>
    let addCalls1 := if a.ids = [] then ctx.addCalls else ctx.addCalls ++ [a.ids.zip a.exps]
    let localIdxs := sortNat (a.doneEnvs.map (·.1))
    let globalIds := a.doneEnvs.map (fun x => x.2.1)
    let ep1 := ctx.episodeCount + a.doneEnvs.length
    let st2 := if a.doneEnvs = [] then st1 else ceClear A st1 globalIds
    let ready1 :=
      if a.doneEnvs = [] then ctx.readyEnvIds
      else
        match nEpisode with
        | none => ctx.readyEnvIds
        | some ne =>
          let surplus : Int := (ctx.readyEnvIds.length : Int) - ((ne : Int) - (ep1 : Int))
          if 0 < surplus then trimIdx ctx.readyEnvIds (localIdxs.take surplus.toNat)
          else ctx.readyEnvIds
    let ep2 := if a.doneEnvs = [] then ctx.episodeCount else ep1
    .ok (st2, ⟨a.stepCount, ep2, ready1, addCalls1, a.snaps, a.blocks⟩)

/-- The `while True` loop of the collective variant over a finite
stream of tick inputs. -/
def collectiveLoop (A : Nat) (nStep nEpisode : Option Nat) :
    List (List Lane) → CEState → CECtx → Except CollectError (CEState × CECtx)
  | [], st, ctx => .ok (st, ctx)
  | lanes :: rest, st, ctx =>
    if lanes.length = ctx.readyEnvIds.length then
      match collectiveTick A nEpisode st ctx lanes with
      | .error e => .error e
      | .ok (st1, ctx1) =>
        if breakCond nStep nEpisode ctx1.stepCount ctx1.episodeCount then .ok (st1, ctx1)
        else collectiveLoop A nStep nEpisode rest st1 ctx1
    else .error .laneMismatch

/-- Initial cross-tick state of the collective variant. -/
def initCEState (A : Nat) : CEState :=
  ⟨fun _ => none, fun _ => [], fun _ => List.replicate A none,
   fun _ => List.replicate A none, fun _ => [], fun _ => []⟩

/-- `CollectiveExperienceCollector.collect`. -/
def collectiveCollect (envNum A : Nat) (nStep nEpisode : Option Nat)
    (ticks : List (List Lane)) : Except CollectError (Bool × CEState × CECtx) :=
  match checkArgs envNum nStep nEpisode with
  | .error e => .error e
  | .ok (ready, warned) =>
    match collectiveLoop A nStep nEpisode ticks (initCEState A) ⟨0, 0, ready, [], [], []⟩ with
    | .error e => .error e
    | .ok (st, ctx) => .ok (warned, st, ctx)

/-- Did the collective run complete without a fatal assertion? -/
def cRunOk (r : Except CollectError (Bool × CEState × CECtx)) : Bool :=
  match r with
  | .ok _ => true
  | .error _ => false

/-- The `buffer.add` calls performed by a collective run. -/
def cRunCalls (r : Except CollectError (Bool × CEState × CECtx)) :
    List (List (Nat × TransRec)) :=
  match r with
  | .ok (_, _, c) => c.addCalls
  | .error _ => []

/-- The snapshot history of a collective run. -/
def cRunSnaps (r : Except CollectError (Bool × CEState × CECtx)) :
    List (Nat × List Nat) :=
  match r with
  | .ok (_, _, c) => c.snaps
  | .error _ => []

/-- The pending entry of `temp_data` at a slot after a collective run. -/
def cRunTemp (r : Except CollectError (Bool × CEState × CECtx)) (k : Nat) :
    Option TransRec :=
  match r with
  | .ok (_, s, _) => s.tempData k
  | .error _ => none

/-! ### Helper lemmas -/

/-- Shape of the `done_envs` accumulator after one multi-agent lane
iteration: at most one completion event is appended, with this lane's
index and environment, exactly when the lane's `done` flag is set and
the appended done-list reaches `agents_num` or the lane signals
`explicit_reset`. -/
theorem multiLane_doneEnvs_key (A : Nat) (st : MAState) (a : MATick) (i : Nat) (l : Lane) :
    ((multiLane A (st, a) i l).2.doneEnvs).map (fun p => (p.1, p.2.1)) =
      a.doneEnvs.map (fun p => (p.1, p.2.1)) ++
        (if laneDone l = true ∧
            ((st.doneAgents l.envId).length + 1 = A ∨ l.explicitReset = true)
         then [(i, l.envId)] else []) := by
  unfold multiLane
  by_cases hd : laneDone l = true
  · by_cases hr : (st.doneAgents l.envId).length + 1 = A ∨ l.explicitReset = true
    · simp [hd, hr, updEnv]
    · simp [hd, hr, updEnv]
  · simp [hd]

/-- Shape of `done_envs` after one collective lane iteration. -/
theorem collectiveLaneCore_doneEnvs_key (A : Nat) (st : CEState) (a : CETick)
    (i : Nat) (l : Lane) :
    ((collectiveLaneCore A st a i l).2.doneEnvs).map (fun p => (p.1, p.2.1)) =
      a.doneEnvs.map (fun p => (p.1, p.2.1)) ++
        (if laneDone l = true ∧
            ((st.doneAgents l.envId).length + 1 = A ∨ l.explicitReset = true)
         then [(i, l.envId)] else []) := by
  unfold collectiveLaneCore
  by_cases hd : laneDone l = true
  · by_cases hr : (st.doneAgents l.envId).length + 1 = A ∨ l.explicitReset = true
    · simp [hd, hr, updEnv]
    · simp [hd, hr, updEnv]
  · simp [hd]

/-- The multi-agent done-list for the acting lane's environment only
ever grows during a lane iteration. -/
theorem multiLane_doneAgents_grows (A : Nat) (st : MAState) (a : MATick) (i : Nat) (l : Lane) :
    ∃ suf, (multiLane A (st, a) i l).1.doneAgents l.envId = st.doneAgents l.envId ++ suf := by
  unfold multiLane
  by_cases hd : laneDone l = true
  · exact ⟨[l.envId * A + l.nextAgentId], by simp [hd, updEnv]⟩
  · exact ⟨[], by simp [hd]⟩

/-! ### C7 — target configuration errors -/

/-- C7: a collect call of either variant fails immediately — for every
input stream, hence before any policy query or environment step — when
both `n_step` and `n_episode` are supplied, and likewise when neither
is supplied; a positive `n_step` that is not a multiple of the number
of environments passes validation with only the warning flag set, so
the collection proceeds. -/
theorem collect_target_validation (envNum A n m : Nat)
    (ticks cticks : List (List Lane)) (hn : n ≠ 0) (hmul : n % envNum ≠ 0) :
    multiCollect envNum A (some n) (some m) ticks = .error .bothTargets ∧
    collectiveCollect envNum A (some n) (some m) cticks = .error .bothTargets ∧
    multiCollect envNum A none none ticks = .error .neitherTarget ∧
    collectiveCollect envNum A none none cticks = .error .neitherTarget ∧
    checkArgs envNum (some n) none = .ok (List.range envNum, true) := by
  refine ⟨rfl, rfl, rfl, rfl, ?_⟩
  simp [checkArgs, hn, hmul]

/-- Witness for C7 at `envNum = 2`, `n_step = 3`, `n_episode = 1`. -/
theorem collect_target_validation_w :
    multiCollect 2 2 (some 3) (some 1) [] = .error .bothTargets ∧
    collectiveCollect 2 2 (some 3) (some 1) [] = .error .bothTargets ∧
    multiCollect 2 2 none none [] = .error .neitherTarget ∧
    collectiveCollect 2 2 none none [] = .error .neitherTarget ∧
    checkArgs 2 (some 3) none = .ok (List.range 2, true) :=
  collect_target_validation 2 2 3 1 [] [] (by decide) (by decide)

/-! ### C4 — episode completion -/

/-- A lane with `explicit_reset` set in its info but with `done` false. -/
def resetOnlyLane : Lane := ⟨0, 0, 3, 9, 1, 5, 1, false, false, false, true⟩

/-- C4 counterexample: the claim states an environment-completion event
is recorded exactly when the done-count reaches `agents_num` *or* the
tick's info carries `explicit_reset`.  On a lane whose info carries
`explicit_reset` but whose `done` flag is false, the right-hand side of
that equivalence holds yet no completion event is recorded (the
completion branch sits inside `if done[env_idx]`). -/
theorem completion_not_on_reset_alone :
    ¬(((multiLane 2 (initMAState, ⟨[], [], []⟩) 0 resetOnlyLane).2.doneEnvs ≠ []) ↔
      (((multiLane 2 (initMAState, ⟨[], [], []⟩) 0 resetOnlyLane).1.doneAgents 0).length = 2 ∨
        resetOnlyLane.explicitReset = true)) := by decide

/-- C4 (amended): in both variants an environment-completion event is
recorded for a lane exactly when the lane's `done` flag is set *and*
(the done-list, with this agent appended, has length `agents_num`, or
the lane's info carries `explicit_reset`); episode teardown empties the
completion tracker — and, in the collective variant, the `ready` and
`filling` turn-state arrays — of every completed environment; within an
episode the tracker only grows. -/
theorem completion_event_iff (A : Nat) (st : MAState) (a : MATick) (i : Nat) (l : Lane)
    (cst : CEState) (ca : CETick) (f : Nat → List Nat) (es : List Nat) (e : Nat)
    (he : e ∈ es) :
    ((multiLane A (st, a) i l).2.doneEnvs).map (fun p => (p.1, p.2.1)) =
      a.doneEnvs.map (fun p => (p.1, p.2.1)) ++
        (if laneDone l = true ∧
            ((st.doneAgents l.envId).length + 1 = A ∨ l.explicitReset = true)
         then [(i, l.envId)] else []) ∧
    ((collectiveLaneCore A cst ca i l).2.doneEnvs).map (fun p => (p.1, p.2.1)) =
      ca.doneEnvs.map (fun p => (p.1, p.2.1)) ++
        (if laneDone l = true ∧
            ((cst.doneAgents l.envId).length + 1 = A ∨ l.explicitReset = true)
         then [(i, l.envId)] else []) ∧
    clearEnvs f es e = [] ∧
    (ceClear A cst es).doneAgents e = [] ∧
    (ceClear A cst es).ready e = List.replicate A none ∧
    (ceClear A cst es).filling e = List.replicate A none ∧
    (∃ suf, (multiLane A (st, a) i l).1.doneAgents l.envId = st.doneAgents l.envId ++ suf) := by
  refine ⟨multiLane_doneEnvs_key A st a i l, collectiveLaneCore_doneEnvs_key A cst ca i l,
    ?_, ?_, ?_, ?_, multiLane_doneAgents_grows A st a i l⟩
  · simp [clearEnvs, he]
  · simp [ceClear, he]
  · simp [ceClear, he]
  · simp [ceClear, he]

/-- Witness for C4 (amended) at a concrete lane with `done` set and
the done-count reaching `agents_num = 1`. -/
theorem completion_event_iff_w :
    ((multiLane 1 (initMAState, ⟨[], [], []⟩) 0 ⟨0, 0, 3, 9, 0, 5, 1, true, false, false, false⟩).2.doneEnvs).map
        (fun p => (p.1, p.2.1)) =
      ([] : List (Nat × Nat × Int)).map (fun p => (p.1, p.2.1)) ++
        (if laneDone ⟨0, 0, 3, 9, 0, 5, 1, true, false, false, false⟩ = true ∧
            ((initMAState.doneAgents 0).length + 1 = 1 ∨
              (⟨0, 0, 3, 9, 0, 5, 1, true, false, false, false⟩ : Lane).explicitReset = true)
         then [(0, 0)] else []) ∧
    ((collectiveLaneCore 1 (initCEState 1) ⟨[], [], [], 0, [], []⟩ 0 ⟨0, 0, 3, 9, 0, 5, 1, true, false, false, false⟩).2.doneEnvs).map
        (fun p => (p.1, p.2.1)) =
      ([] : List (Nat × Nat × Int)).map (fun p => (p.1, p.2.1)) ++
        (if laneDone ⟨0, 0, 3, 9, 0, 5, 1, true, false, false, false⟩ = true ∧
            (((initCEState 1).doneAgents 0).length + 1 = 1 ∨
              (⟨0, 0, 3, 9, 0, 5, 1, true, false, false, false⟩ : Lane).explicitReset = true)
         then [(0, 0)] else []) ∧
    clearEnvs (fun _ => [7]) [0] 0 = [] ∧
    (ceClear 1 (initCEState 1) [0]).doneAgents 0 = [] ∧
    (ceClear 1 (initCEState 1) [0]).ready 0 = List.replicate 1 none ∧
    (ceClear 1 (initCEState 1) [0]).filling 0 = List.replicate 1 none ∧
    (∃ suf, (multiLane 1 (initMAState, ⟨[], [], []⟩) 0 ⟨0, 0, 3, 9, 0, 5, 1, true, false, false, false⟩).1.doneAgents 0 =
      initMAState.doneAgents 0 ++ suf) :=
  completion_event_iff 1 initMAState ⟨[], [], []⟩ 0
    ⟨0, 0, 3, 9, 0, 5, 1, true, false, false, false⟩ (initCEState 1)
    ⟨[], [], [], 0, [], []⟩ (fun _ => [7]) [0] 0 (by decide)

/-! ### C3 — pending-store duplicate handling -/

/-- A one-environment, two-agent stream: agent 0 leaves a pending
record, agent 1 then ends the episode via `explicit_reset` with its own
turn flushed directly, and after the reset agent 0 acts again towards
agent 1. -/
def ovT1 : Lane := ⟨0, 0, 3, 9, 1, 5, 1, false, false, false, false⟩

/-- Second tick of the overwrite stream (agent 1, done + explicit
reset, same agent next). -/
def ovT2 : Lane := ⟨0, 1, 5, 8, 1, 6, 2, true, false, false, true⟩

/-- Third tick of the overwrite stream (agent 0 again, fresh episode). -/
def ovT3 : Lane := ⟨0, 0, 10, 4, 1, 11, 0, false, false, false, false⟩

/-- C3 counterexample: after two ticks slot 0 holds a pending record;
the third tick stores a pending transition for slot 0 again, and the
collect run does not fail — the store silently replaces the old record
(`temp_data[buffer_id] = ...` is a plain dict assignment), contradicting
the claim that a duplicate store fails fatally. -/
theorem pending_store_no_duplicate_error :
    mRunTemp (multiCollect 1 2 (some 100) none [[ovT1], [ovT2]]) 0 = some (laneTrans ovT1) ∧
    mRunOk (multiCollect 1 2 (some 100) none [[ovT1], [ovT2], [ovT3]]) = true ∧
    mRunTemp (multiCollect 1 2 (some 100) none [[ovT1], [ovT2], [ovT3]]) 0 = some (laneTrans ovT3) ∧
    laneTrans ovT1 ≠ laneTrans ovT3 := by decide

/-- C3 (amended): `temp_data` is a per-slot map, so it holds at most
one record per slot; but storing a pending transition for an occupied
slot does not fail in either variant — the store succeeds and silently
replaces the existing record with this tick's record. -/
theorem pending_store_overwrites (A : Nat) (st : MAState) (a : MATick)
    (cst : CEState) (ca : CETick) (i : Nat) (l : Lane) (t0 t1 : TransRec)
    (hocc : st.tempData (l.envId * A + l.agentId) = some t0)
    (hocc2 : cst.tempData (l.envId * A + l.agentId) = some t1)
    (hne : l.envId * A + l.agentId ≠ l.envId * A + l.nextAgentId)
    (hlenM : (if laneDone l = true then st.doneAgents l.envId ++ [l.envId * A + l.nextAgentId]
              else st.doneAgents l.envId).length ≠ A)
    (hmemM : l.envId * A + l.agentId ∉
             (if laneDone l = true then st.doneAgents l.envId ++ [l.envId * A + l.nextAgentId]
              else st.doneAgents l.envId))
    (hlenC : (if laneDone l = true then cst.doneAgents l.envId ++ [l.envId * A + l.nextAgentId]
              else cst.doneAgents l.envId).length ≠ A)
    (hmemC : l.envId * A + l.agentId ∉
             (if laneDone l = true then cst.doneAgents l.envId ++ [l.envId * A + l.nextAgentId]
              else cst.doneAgents l.envId))
    (herr : collectiveLaneErr A cst l = none) :
    (multiLane A (st, a) i l).1.tempData (l.envId * A + l.agentId) = some (laneTrans l) ∧
    collectiveLane A cst ca i l = .ok (collectiveLaneCore A cst ca i l) ∧
    (collectiveLaneCore A cst ca i l).1.tempData (l.envId * A + l.agentId) = some (laneTrans l) := by
  refine ⟨?_, ?_, ?_⟩
  · unfold multiLane
    by_cases hd : laneDone l = true
    · simp only [hd, if_true] at hlenM hmemM
      simp only [List.length_append, List.length_cons, List.length_nil, Nat.zero_add] at hlenM
      simp [hd, updEnv, hne, hmemM, mapPut]
      rw [if_neg hlenM]
      simp [mapPut]
    · simp only [hd, if_false] at hlenM hmemM
      simp [hd, hne, mapPut]
      rw [if_pos ⟨hlenM, hmemM⟩]
      simp [mapPut]
  · unfold collectiveLane
    rw [herr]
  · unfold collectiveLaneCore
    by_cases hd : laneDone l = true
    · simp only [hd, if_true] at hlenC hmemC
      simp only [List.length_append, List.length_cons, List.length_nil, Nat.zero_add] at hlenC
      simp [hd, updEnv, hne, hmemC, mapPut]
      rw [if_neg hlenC]
      simp [mapPut]
    · simp only [hd, if_false] at hlenC hmemC
      simp [hd, hne, mapPut]
      rw [if_pos ⟨hlenC, hmemC⟩]
      simp [mapPut]

/-- Witness for C3 (amended) with both stores occupied at slot 0. -/
theorem pending_store_overwrites_w :
    (multiLane 2 (⟨fun k => if k = 0 then some (laneTrans ovT1) else none, fun _ => []⟩,
        ⟨[], [], []⟩) 0 ovT3).1.tempData 0 = some (laneTrans ovT3) ∧
    collectiveLane 2 { initCEState 2 with
        tempData := fun k => if k = 0 then some (laneTrans ovT1) else none }
      ⟨[], [], [], 0, [], []⟩ 0 ovT3 =
      .ok (collectiveLaneCore 2 { initCEState 2 with
        tempData := fun k => if k = 0 then some (laneTrans ovT1) else none }
        ⟨[], [], [], 0, [], []⟩ 0 ovT3) ∧
    (collectiveLaneCore 2 { initCEState 2 with
        tempData := fun k => if k = 0 then some (laneTrans ovT1) else none }
      ⟨[], [], [], 0, [], []⟩ 0 ovT3).1.tempData 0 = some (laneTrans ovT3) :=
  pending_store_overwrites 2
    ⟨fun k => if k = 0 then some (laneTrans ovT1) else none, fun _ => []⟩ ⟨[], [], []⟩
    { initCEState 2 with tempData := fun k => if k = 0 then some (laneTrans ovT1) else none }
    ⟨[], [], [], 0, [], []⟩ 0 ovT3 (laneTrans ovT1) (laneTrans ovT1)
    (by decide) (by decide) (by decide) (by decide) (by decide) (by decide) (by decide)
    (by decide)

/-! ### C1 — turn completeness -/

/-- A complete two-tick episode: agent 0 acts towards agent 1 with
agent 1's done flag delivered, then agent 1 acts towards agent 0 with
agent 0's done flag delivered, completing the episode. -/
def epT1 : Lane := ⟨0, 0, 3, 9, 1, 5, 1, true, false, false, false⟩

/-- Second tick of the two-tick episode. -/
def epT2 : Lane := ⟨0, 1, 5, 8, 0, 7, 2, true, false, false, false⟩

/-- C1 counterexample: the episode `[[epT1], [epT2]]` has 2 environment
ticks, but the collect run (which completes the episode and returns
cleanly) flushes exactly 1 transition to the buffer, not 2 — agent 1's
final record is never stored or flushed because the episode is fully
done.  Moreover the flushed transition's `next_observation` is `7`
(agent 0's own next observation, delivered at tick 2), not `5`, the
observation produced immediately after agent 0's action at tick 1. -/
theorem turn_completeness_fails :
    mRunOk (multiCollect 1 2 none (some 1) [[epT1], [epT2]]) = true ∧
    ([[epT1], [epT2]] : List (List Lane)).length = 2 ∧
    (mRunCalls (multiCollect 1 2 none (some 1) [[epT1], [epT2]])).flatten.length = 1 ∧
    (mRunCalls (multiCollect 1 2 none (some 1) [[epT1], [epT2]])).flatten.length ≠ 2 ∧
    ((mRunCalls (multiCollect 1 2 none (some 1) [[epT1], [epT2]])).flatten.map
        (fun p => p.2.obsNextVal)) = [7] ∧
    epT1.obsNextVal = 5 := by decide

/-- C1 (amended): at each tick, the multi-agent lane step appends to
the flush batch exactly (1 if the next slot had a pending record) +
(1 if the same agent acts again next) transitions — records suppressed
at episode teardown are dropped, so an episode's flush total can be
smaller than its tick count — and every transition flushed at a tick
carries that tick's reward, termination flags and next observation:
its `next_observation` is the acting agent's own next observation
(the `obs_next` of the tick at which it is flushed). -/
theorem flush_block_per_lane (A : Nat) (st : MAState) (a : MATick) (i : Nat) (l : Lane) :
    ∃ blk, (multiLane A (st, a) i l).2.exps = a.exps ++ blk ∧
      (multiLane A (st, a) i l).2.ids.length = a.ids.length + blk.length ∧
      blk.length =
        ((if (st.tempData (l.envId * A + l.nextAgentId)).isSome then 1 else 0) +
          (if l.envId * A + l.agentId = l.envId * A + l.nextAgentId then 1 else 0)) ∧
      ∀ t ∈ blk, t.rew = l.rew ∧ t.obsNextAgent = l.nextAgentId ∧
        t.obsNextVal = l.obsNextVal ∧ t.terminated = l.terminated ∧
        t.truncated = l.truncated ∧ t.done = laneDone l := by
  unfold multiLane
  cases hp : st.tempData (l.envId * A + l.nextAgentId) with
  | none =>
    by_cases hb : l.envId * A + l.agentId = l.envId * A + l.nextAgentId
    · exact ⟨[laneTrans l], by simp [hp, hb, laneTrans]⟩
    · exact ⟨[], by simp [hp, hb]⟩
  | some t =>
    by_cases hb : l.envId * A + l.agentId = l.envId * A + l.nextAgentId
    · exact ⟨[completeWith t l, laneTrans l], by simp [hp, hb, completeWith, laneTrans]⟩
    · exact ⟨[completeWith t l], by simp [hp, hb, completeWith]⟩

/-- Witness for C1 (amended): a lane with a pending record at the next
slot and a different next agent flushes exactly that completed record. -/
theorem flush_block_per_lane_w :
    ∃ blk, (multiLane 2 (⟨fun k => if k = 1 then some (laneTrans ovT1) else none, fun _ => []⟩,
        ⟨[], [], []⟩) 0 epT2).2.exps = [] ++ blk ∧
      (multiLane 2 (⟨fun k => if k = 1 then some (laneTrans ovT1) else none, fun _ => []⟩,
        ⟨[], [], []⟩) 0 epT2).2.ids.length = ([] : List Nat).length + blk.length ∧
      blk.length =
        ((if ((fun k => if k = 1 then some (laneTrans ovT1) else none) (epT2.envId * 2 + epT2.nextAgentId)).isSome then 1 else 0) +
          (if epT2.envId * 2 + epT2.agentId = epT2.envId * 2 + epT2.nextAgentId then 1 else 0)) ∧
      ∀ t ∈ blk, t.rew = epT2.rew ∧ t.obsNextAgent = epT2.nextAgentId ∧
        t.obsNextVal = epT2.obsNextVal ∧ t.terminated = epT2.terminated ∧
        t.truncated = epT2.truncated ∧ t.done = laneDone epT2 :=
  flush_block_per_lane 2
    ⟨fun k => if k = 1 then some (laneTrans ovT1) else none, fun _ => []⟩ ⟨[], [], []⟩ 0 epT2

/-! ### C5 — same-agent consecutive turn -/

/-- C5: when the same agent acts again next (`b = b'`), the multi-agent
lane step completes this tick's record immediately: the record built
from this tick's reward, next observation and termination fields is
appended to this tick's flush batch (after an optional completed
pending record), and no pending record is left for that slot. -/
theorem same_agent_direct_flush (A : Nat) (st : MAState) (a : MATick) (i : Nat) (l : Lane)
    (h : l.agentId = l.nextAgentId) :
    ∃ pre, pre.length ≤ 1 ∧
      (multiLane A (st, a) i l).2.exps = a.exps ++ pre ++ [laneTrans l] ∧
      (multiLane A (st, a) i l).2.ids =
        a.ids ++ (pre.map fun _ => l.envId * A + l.agentId) ++ [l.envId * A + l.agentId] ∧
      (multiLane A (st, a) i l).1.tempData (l.envId * A + l.agentId) = none ∧
      (laneTrans l).rew = l.rew ∧ (laneTrans l).obsNextVal = l.obsNextVal ∧
      (laneTrans l).terminated = l.terminated ∧ (laneTrans l).truncated = l.truncated ∧
      (laneTrans l).done = laneDone l := by
  have hb : l.envId * A + l.agentId = l.envId * A + l.nextAgentId := by rw [h]
  unfold multiLane
  simp only [hb]
  cases hp : st.tempData (l.envId * A + l.nextAgentId) with
  | none =>
    refine ⟨[], ?_⟩
    simp [hp, laneTrans, mapPop]
  | some t =>
    refine ⟨[completeWith t l], ?_⟩
    simp [hp, laneTrans, mapPop]

/-- Witness for C5: agent 1 acts and acts again next, with a clean
pending store. -/
theorem same_agent_direct_flush_w :
    ∃ pre, pre.length ≤ 1 ∧
      (multiLane 2 (initMAState, ⟨[], [], []⟩) 0 ovT2).2.exps = [] ++ pre ++ [laneTrans ovT2] ∧
      (multiLane 2 (initMAState, ⟨[], [], []⟩) 0 ovT2).2.ids =
        [] ++ (pre.map fun _ => ovT2.envId * 2 + ovT2.agentId) ++ [ovT2.envId * 2 + ovT2.agentId] ∧
      (multiLane 2 (initMAState, ⟨[], [], []⟩) 0 ovT2).1.tempData (ovT2.envId * 2 + ovT2.agentId) = none ∧
      (laneTrans ovT2).rew = ovT2.rew ∧ (laneTrans ovT2).obsNextVal = ovT2.obsNextVal ∧
      (laneTrans ovT2).terminated = ovT2.terminated ∧
      (laneTrans ovT2).truncated = ovT2.truncated ∧
      (laneTrans ovT2).done = laneDone ovT2 :=
  same_agent_direct_flush 2 initMAState ⟨[], [], []⟩ 0 ovT2 (by decide)

/-! ### C10 — what episode teardown does and does not clear -/

/-- The per-environment joint-step contents after a run of the
collective variant: the surviving `buffer_ids_to_save` list. -/
def cRunIdsAcc (r : Except CollectError (Bool × CEState × CECtx)) (e : Nat) : List Nat :=
  match r with
  | .ok (_, s, _) => s.bufferIdsToSave e
  | .error _ => []

/-- The surviving `exps_to_save` list after a collective run. -/
def cRunExpsAcc (r : Except CollectError (Bool × CEState × CECtx)) (e : Nat) :
    List TransRec :=
  match r with
  | .ok (_, s, _) => s.expsToSave e
  | .error _ => []

/-- `done_agents_per_env` after a collective run. -/
def cRunDoneAgents (r : Except CollectError (Bool × CEState × CECtx)) (e : Nat) :
    List Nat :=
  match r with
  | .ok (_, s, _) => s.doneAgents e
  | .error _ => []

/-- The `ready` array of one environment after a collective run. -/
def cRunReady (r : Except CollectError (Bool × CEState × CECtx)) (e : Nat) :
    List (Option Nat) :=
  match r with
  | .ok (_, s, _) => s.ready e
  | .error _ => []

/-- The `filling` array of one environment after a collective run. -/
def cRunFilling (r : Except CollectError (Bool × CEState × CECtx)) (e : Nat) :
    List (Option Nat) :=
  match r with
  | .ok (_, s, _) => s.filling e
  | .error _ => []

/-- The episode count of a collective run. -/
def cRunEpisodes (r : Except CollectError (Bool × CEState × CECtx)) : Nat :=
  match r with
  | .ok (_, _, c) => c.episodeCount
  | .error _ => 0

/-- First tick of the surviving-accumulator stream: agent 0's solo
round flushes (binding the buffer's episode-statistics arrays). -/
def acT1 : Lane := ⟨0, 0, 3, 9, 0, 4, 1, false, false, true, false⟩

/-- Second tick: agent 0 acts towards agent 1, leaving a pending
record. -/
def acT2 : Lane := ⟨0, 0, 4, 9, 1, 5, 1, false, false, false, false⟩

/-- Third tick: agent 1 acts, `done` and `explicit_reset` end the
episode while the snapshotted ready set `[0, 1]` does not match the
accumulated ids `[0]`, so no flush precedes the teardown. -/
def acT3 : Lane := ⟨0, 1, 5, 8, 0, 6, 2, true, false, false, true⟩

/-- C10 counterexample: the claim states the completion event clears,
in the collective variant, the ready and filling arrays *and the
joint-step accumulators*.  In this run the environment-completion event
of the third tick is processed (one episode counted; tracker, `ready`
and `filling` are emptied), yet the joint-step accumulators survive
non-empty: `buffer_ids_to_save` still holds `[0]` and `exps_to_save`
still holds the unmatched partial round.  (The pending entry for slot 1
also survives, as the claim correctly states.) -/
theorem teardown_leaves_accumulators :
    cRunOk (collectiveCollect 1 2 (some 100) none [[acT1], [acT2], [acT3]]) = true ∧
    cRunEpisodes (collectiveCollect 1 2 (some 100) none [[acT1], [acT2], [acT3]]) = 1 ∧
    cRunDoneAgents (collectiveCollect 1 2 (some 100) none [[acT1], [acT2], [acT3]]) 0 = [] ∧
    cRunReady (collectiveCollect 1 2 (some 100) none [[acT1], [acT2], [acT3]]) 0 =
      List.replicate 2 none ∧
    cRunFilling (collectiveCollect 1 2 (some 100) none [[acT1], [acT2], [acT3]]) 0 =
      List.replicate 2 none ∧
    cRunIdsAcc (collectiveCollect 1 2 (some 100) none [[acT1], [acT2], [acT3]]) 0 = [0] ∧
    cRunIdsAcc (collectiveCollect 1 2 (some 100) none [[acT1], [acT2], [acT3]]) 0 ≠ [] ∧
    (cRunExpsAcc (collectiveCollect 1 2 (some 100) none [[acT1], [acT2], [acT3]]) 0).length = 1 ∧
    cRunTemp (collectiveCollect 1 2 (some 100) none [[acT1], [acT2], [acT3]]) 1 =
      some (laneTrans acT3) := by decide

/-- C10 (amended): episode teardown clears only the completion tracker
and, in the collective variant, the `ready` and `filling` arrays; the
pending store *and* the per-environment joint-step accumulators
(`exps_to_save`, `buffer_ids_to_save`) are left untouched.  The
tempData map after a full multi-agent tick is exactly the lane pass's,
`ceClear` preserves `temp_data`, `exps_to_save` and
`buffer_ids_to_save` verbatim, and a collective tick's resulting
`temp_data`, `exps_to_save` and `buffer_ids_to_save` are the lane
pass's — so no pending entry is cleared by an environment completion,
`temp_data` is never cleared wholesale inside a tick, and the
joint-step accumulators reachably survive a reset non-empty (see the
counterexample). -/
theorem pending_survives_reset (A : Nat) (nE : Option Nat) (st : MAState) (ctx : MACtx)
    (lanes : List Lane) (cst : CEState) (cctx : CECtx) (clanes : List Lane)
    (s : CEState) (es : List Nat) :
    (multiTick A nE st ctx lanes).1.tempData =
      (multiLanePass A (st, ⟨[], [], []⟩) lanes.enum).1.tempData ∧
    (ceClear A s es).tempData = s.tempData ∧
    (ceClear A s es).expsToSave = s.expsToSave ∧
    (ceClear A s es).bufferIdsToSave = s.bufferIdsToSave ∧
    (∀ p, collectiveTick A nE cst cctx clanes = .ok p →
      ∃ q, collectiveLanePass A cst ⟨[], [], [], cctx.stepCount, cctx.snaps, cctx.blocks⟩
          clanes.enum = .ok q ∧
        p.1.tempData = q.1.tempData ∧
        p.1.expsToSave = q.1.expsToSave ∧
        p.1.bufferIdsToSave = q.1.bufferIdsToSave) := by
  refine ⟨?_, rfl, rfl, rfl, ?_⟩
  · unfold multiTick
    dsimp only
    split
    · rfl
    · rfl
  · intro p hp
    unfold collectiveTick at hp
    cases hq : collectiveLanePass A cst ⟨[], [], [], cctx.stepCount, cctx.snaps, cctx.blocks⟩
        clanes.enum with
    | error e => rw [hq] at hp; exact absurd hp (by simp)
    | ok q =>
      rw [hq] at hp
      dsimp only at hp
      injection hp with h2
      subst h2
      refine ⟨q, rfl, ?_, ?_, ?_⟩
      all_goals
        dsimp only
        split <;> rfl

/-- Witness for C10 (amended) at a concrete one-tick collective run. -/
theorem pending_survives_reset_w :
    (multiTick 2 (some 1) initMAState ⟨0, 0, [0], []⟩ [epT1]).1.tempData =
      (multiLanePass 2 (initMAState, ⟨[], [], []⟩) ([epT1] : List Lane).enum).1.tempData ∧
    (ceClear 2 (initCEState 2) [0]).tempData = (initCEState 2).tempData ∧
    (ceClear 2 (initCEState 2) [0]).expsToSave = (initCEState 2).expsToSave ∧
    (ceClear 2 (initCEState 2) [0]).bufferIdsToSave = (initCEState 2).bufferIdsToSave ∧
    (∀ p, collectiveTick 2 (some 1) (initCEState 2) ⟨0, 0, [0], [], [], []⟩ [epT1] = .ok p →
      ∃ q, collectiveLanePass 2 (initCEState 2) ⟨[], [], [], 0, [], []⟩
          ([epT1] : List Lane).enum = .ok q ∧
        p.1.tempData = q.1.tempData ∧
        p.1.expsToSave = q.1.expsToSave ∧
        p.1.bufferIdsToSave = q.1.bufferIdsToSave) :=
  pending_survives_reset 2 (some 1) initMAState ⟨0, 0, [0], []⟩ [epT1] (initCEState 2)
    ⟨0, 0, [0], [], [], []⟩ [epT1] (initCEState 2) [0]

/-! ### C9 — step-counter semantics of the two variants -/

/-- One multi-agent lane iteration appends equally many transitions and
buffer ids. -/
theorem multiLane_len_eq (A : Nat) (sa : MAState × MATick) (i : Nat) (l : Lane)
    (h : sa.2.exps.length = sa.2.ids.length) :
    (multiLane A sa i l).2.exps.length = (multiLane A sa i l).2.ids.length := by
  unfold multiLane
  cases hp : sa.1.tempData (l.envId * A + l.nextAgentId) <;>
    by_cases hb : l.envId * A + l.agentId = l.envId * A + l.nextAgentId <;>
      simp [hp, hb, h]

/-- The multi-agent lane pass keeps `experience_to_save` and
`buffer_ids_to_save` the same length. -/
theorem multiLanePass_len_eq (A : Nat) (ps : List (Nat × Lane)) (sa : MAState × MATick)
    (h : sa.2.exps.length = sa.2.ids.length) :
    (multiLanePass A sa ps).2.exps.length = (multiLanePass A sa ps).2.ids.length := by
  induction ps generalizing sa with
  | nil => simpa [multiLanePass] using h
  | cons p rest ih =>
    cases p with
    | mk i l =>
      rw [multiLanePass]
      exact ih (multiLane A sa i l) (multiLane_len_eq A sa i l h)

/-- One collective lane iteration advances `step_count` by exactly the
number of joint-round blocks it flushes (zero or one), and only ever
appends to the block history. -/
theorem collectiveLaneCore_step_blocks (A : Nat) (st : CEState) (a : CETick)
    (i : Nat) (l : Lane) :
    (collectiveLaneCore A st a i l).2.stepCount + a.blocks.length =
      a.stepCount + (collectiveLaneCore A st a i l).2.blocks.length ∧
    ∃ bs, (collectiveLaneCore A st a i l).2.blocks = a.blocks ++ bs := by
  unfold collectiveLaneCore
  dsimp only
  split_ifs <;>
    first
      | exact ⟨by simp only [List.length_append, List.length_cons, List.length_nil]; omega,
          _, rfl⟩
      | exact ⟨rfl, [], by simp⟩

/-- The collective lane pass advances `step_count` by exactly the
number of joint-round blocks flushed during the pass. -/
theorem collectiveLanePass_step_blocks (A : Nat) (ps : List (Nat × Lane)) (st : CEState)
    (a : CETick) (q : CEState × CETick)
    (h : collectiveLanePass A st a ps = .ok q) :
    q.2.stepCount + a.blocks.length = a.stepCount + q.2.blocks.length ∧
    ∃ bs, q.2.blocks = a.blocks ++ bs := by
  induction ps generalizing st a with
  | nil =>
    rw [collectiveLanePass] at h
    have : (st, a) = q := by simpa using h
    rw [← this]
    exact ⟨rfl, [], by simp⟩
  | cons p rest ih =>
    cases p with
    | mk i l =>
      rw [collectiveLanePass] at h
      cases hcl : collectiveLane A st a i l with
      | error e => rw [hcl] at h; exact absurd h (by simp)
      | ok r =>
        rw [hcl] at h
        have hcore : r = collectiveLaneCore A st a i l := by
          unfold collectiveLane at hcl
          cases herr : collectiveLaneErr A st l <;> rw [herr] at hcl <;> simp at hcl
          exact hcl.symm
        have hstep := collectiveLaneCore_step_blocks A st a i l
        rw [← hcore] at hstep
        obtain ⟨hs1, bs1, hb1⟩ := hstep
        obtain ⟨hs2, bs2, hb2⟩ := ih r.1 r.2 h
        constructor
        · omega
        · exact ⟨bs1 ++ bs2, by rw [hb2, hb1, List.append_assoc]⟩

/-- C9: per tick, the multi-agent variant's `step_count` advances by
the number of transitions flushed in that tick's `buffer.add` call
(`len(buffer_ids_to_save)`, one per flushed transition), while the
collective variant's `step_count` advances by exactly one per complete
joint round flushed (one per block); so `n_step` bounds individual
agent transitions in the first variant and whole joint rounds in the
second. -/
theorem stepcount_semantics (A : Nat) (nE : Option Nat) (st : MAState) (ctx : MACtx)
    (lanes : List Lane) (cst : CEState) (cctx : CECtx) (clanes : List Lane) :
    ((multiTick A nE st ctx lanes).2.stepCount =
      ctx.stepCount + (multiLanePass A (st, ⟨[], [], []⟩) lanes.enum).2.ids.length) ∧
    ((multiTick A nE st ctx lanes).2.addCalls.flatten.length =
      ctx.addCalls.flatten.length +
        (multiLanePass A (st, ⟨[], [], []⟩) lanes.enum).2.ids.length) ∧
    (∀ p, collectiveTick A nE cst cctx clanes = .ok p →
      p.2.stepCount + cctx.blocks.length = cctx.stepCount + p.2.blocks.length ∧
      ∃ bs, p.2.blocks = cctx.blocks ++ bs) := by
  have hlen := multiLanePass_len_eq A lanes.enum (st, ⟨[], [], []⟩) rfl
  refine ⟨?_, ?_, ?_⟩
  · unfold multiTick
    dsimp only
    split
    · simp [*]
    · rfl
  · unfold multiTick
    dsimp only
    split
    · simp [*]
    · simp [List.length_zip, ← hlen]
  · intro p hp
    unfold collectiveTick at hp
    cases hq : collectiveLanePass A cst ⟨[], [], [], cctx.stepCount, cctx.snaps, cctx.blocks⟩
        clanes.enum with
    | error e => rw [hq] at hp; exact absurd hp (by simp)
    | ok q =>
      rw [hq] at hp
      dsimp only at hp
      injection hp with h2
      subst h2
      exact collectiveLanePass_step_blocks A clanes.enum cst
        ⟨[], [], [], cctx.stepCount, cctx.snaps, cctx.blocks⟩ q hq

/-- Witness for C9 at a concrete one-tick pair of runs. -/
theorem stepcount_semantics_w :
    ((multiTick 2 none initMAState ⟨0, 0, [0], []⟩ [ovT2]).2.stepCount =
      0 + (multiLanePass 2 (initMAState, ⟨[], [], []⟩) ([ovT2] : List Lane).enum).2.ids.length) ∧
    ((multiTick 2 none initMAState ⟨0, 0, [0], []⟩ [ovT2]).2.addCalls.flatten.length =
      ([] : List (List (Nat × TransRec))).flatten.length +
        (multiLanePass 2 (initMAState, ⟨[], [], []⟩) ([ovT2] : List Lane).enum).2.ids.length) ∧
    (∀ p, collectiveTick 2 none (initCEState 2) ⟨0, 0, [0], [], [], []⟩ [ovT2] = .ok p →
      p.2.stepCount + ([] : List (Nat × List Nat)).length =
        0 + p.2.blocks.length ∧
      ∃ bs, p.2.blocks = [] ++ bs) :=
  stepcount_semantics 2 none initMAState ⟨0, 0, [0], []⟩ [ovT2] (initCEState 2)
    ⟨0, 0, [0], [], [], []⟩ [ovT2]

/-! ### C6 — deterministic trimming tie-break -/

/-- Index part of `multiLane_doneEnvs_key`: one lane appends at most
its own lane index to the completion events. -/
theorem multiLane_doneEnvs_fst (A : Nat) (st : MAState) (a : MATick) (i : Nat) (l : Lane) :
    ((multiLane A (st, a) i l).2.doneEnvs).map (fun p => p.1) =
      a.doneEnvs.map (fun p => p.1) ++
        (if laneDone l = true ∧
            ((st.doneAgents l.envId).length + 1 = A ∨ l.explicitReset = true)
         then [i] else []) := by
  unfold multiLane
  by_cases hd : laneDone l = true
  · by_cases hr : (st.doneAgents l.envId).length + 1 = A ∨ l.explicitReset = true
    · simp [hd, hr, updEnv]
    · simp [hd, hr, updEnv]
  · simp [hd]

/-- The lane loop of the multi-agent variant visits lanes in index
order, so the completed-environment local indices accumulate in
strictly ascending order. -/
theorem multiLanePass_locals_ascending (A : Nat) (lanes : List Lane) (k : Nat)
    (sa : MAState × MATick)
    (h1 : ∀ x ∈ sa.2.doneEnvs.map (fun p => p.1), x < k)
    (h2 : List.Pairwise (· < ·) (sa.2.doneEnvs.map (fun p => p.1))) :
    (∀ x ∈ ((multiLanePass A sa (List.enumFrom k lanes)).2.doneEnvs.map (fun p => p.1)),
      x < k + lanes.length) ∧
    List.Pairwise (· < ·)
      ((multiLanePass A sa (List.enumFrom k lanes)).2.doneEnvs.map (fun p => p.1)) := by
  induction lanes generalizing k sa with
  | nil =>
    rw [List.enumFrom_nil]
    exact ⟨fun x hx => Nat.lt_of_lt_of_le (h1 x hx) (Nat.le_add_right k 0), h2⟩
  | cons l rest ih =>
    rw [List.enumFrom_cons, multiLanePass]
    have hfst := multiLane_doneEnvs_fst A sa.1 sa.2 k l
    rw [Prod.mk.eta] at hfst
    have h1' : ∀ x ∈ (multiLane A sa k l).2.doneEnvs.map (fun p => p.1), x < k + 1 := by
      intro x hx
      rw [hfst] at hx
      rcases List.mem_append.mp hx with hx | hx
      · exact Nat.lt_succ_of_lt (h1 x hx)
      · split at hx
        · rw [List.mem_singleton.mp hx]
          exact Nat.lt_succ_self k
        · exact absurd hx (List.not_mem_nil x)
    have h2' : List.Pairwise (· < ·) ((multiLane A sa k l).2.doneEnvs.map (fun p => p.1)) := by
      rw [hfst]
      refine List.pairwise_append.mpr ⟨h2, ?_, ?_⟩
      · split
        · exact List.pairwise_singleton _ _
        · exact List.Pairwise.nil
      · intro x hx y hy
        split at hy
        · rw [List.mem_singleton.mp hy]
          exact h1 x hx
        · exact absurd hy (List.not_mem_nil y)
    have hrec := ih (k + 1) (multiLane A sa k l) h1' h2'
    refine ⟨fun x hx => ?_, hrec.2⟩
    have := hrec.1 x hx
    simpa [Nat.add_assoc, Nat.add_comm 1 rest.length] using this

/-- C6: in an `n_episode`-bounded tick where trimming applies, the
completed lanes' local indices are in ascending order at trimming time
(the multi-agent lane pass produces them sorted by construction; the
collective variant sorts explicitly), and the lanes removed from
`ready_env_ids` are exactly the first `surplus_env_num` completed lanes
in that ascending order. -/
theorem deterministic_trimming (A : Nat) (st : MAState) (ctx : MACtx) (lanes : List Lane)
    (ne : Nat) (xs : List Nat)
    (hdn : ¬((multiLanePass A (st, ⟨[], [], []⟩) lanes.enum).2.doneEnvs = []))
    (hs : 0 < (ctx.readyEnvIds.length : Int) -
      ((ne : Int) -
        ((ctx.episodeCount + (multiLanePass A (st, ⟨[], [], []⟩) lanes.enum).2.doneEnvs.length : Nat) : Int))) :
    List.Pairwise (· < ·)
      ((multiLanePass A (st, ⟨[], [], []⟩) lanes.enum).2.doneEnvs.map (fun p => p.1)) ∧
    (multiTick A (some ne) st ctx lanes).2.readyEnvIds =
      trimIdx ctx.readyEnvIds
        (((multiLanePass A (st, ⟨[], [], []⟩) lanes.enum).2.doneEnvs.map (fun p => p.1)).take
          ((ctx.readyEnvIds.length : Int) -
            ((ne : Int) -
              ((ctx.episodeCount + (multiLanePass A (st, ⟨[], [], []⟩) lanes.enum).2.doneEnvs.length : Nat) : Int))).toNat) ∧
    List.Sorted (· ≤ ·) (sortNat xs) ∧
    (∀ (cst : CEState) (cctx : CECtx) (clanes : List Lane) (q : CEState × CETick) (p : CEState × CECtx),
      collectiveLanePass A cst ⟨[], [], [], cctx.stepCount, cctx.snaps, cctx.blocks⟩
        clanes.enum = .ok q →
      ¬(q.2.doneEnvs = []) →
      0 < (cctx.readyEnvIds.length : Int) -
        ((ne : Int) - ((cctx.episodeCount + q.2.doneEnvs.length : Nat) : Int)) →
      collectiveTick A (some ne) cst cctx clanes = .ok p →
      p.2.readyEnvIds =
        trimIdx cctx.readyEnvIds
          ((sortNat (q.2.doneEnvs.map (fun r => r.1))).take
            ((cctx.readyEnvIds.length : Int) -
              ((ne : Int) - ((cctx.episodeCount + q.2.doneEnvs.length : Nat) : Int))).toNat) ∧
      List.Sorted (· ≤ ·) (sortNat (q.2.doneEnvs.map (fun r => r.1)))) := by
  refine ⟨?_, ?_, ?_, ?_⟩
  · have := multiLanePass_locals_ascending A lanes 0 (st, ⟨[], [], []⟩)
      (by simp) (by simp)
    simpa [List.enum] using this.2
  · unfold multiTick
    dsimp only
    rw [if_neg hdn, if_pos hs]
  · exact List.sorted_insertionSort (· ≤ ·) xs
  · intro cst cctx clanes q p hq hdn2 hs2 hp
    unfold collectiveTick at hp
    rw [hq] at hp
    dsimp only at hp
    injection hp with h2
    subst h2
    refine ⟨?_, List.sorted_insertionSort (· ≤ ·) _⟩
    dsimp only
    rw [if_neg hdn2, if_pos hs2]

/-! ### C2 — joint-round atomicity -/

/-- `ceFillSnap` either takes no snapshot and leaves `ready` untouched,
or records the snapshot it installs as the new `ready` array. -/
theorem ceFillSnap_cases (A : Nat) (st : CEState) (l : Lane) :
    ((ceFillSnap A st l).2.2 = none ∧ (ceFillSnap A st l).1 = st.ready l.envId) ∨
    (∃ s, (ceFillSnap A st l).2.2 = some s ∧ s = (ceFillSnap A st l).1.filterMap id) := by
  unfold ceFillSnap
  dsimp only
  split <;> split <;>
    first
      | (right; exact ⟨_, rfl, rfl⟩)
      | (left; exact ⟨rfl, rfl⟩)

/-- C2 (amended): one collective lane iteration either flushes nothing,
or flushes exactly its environment's accumulated `buffer_ids_to_save`
as one non-empty block whose id multiset equals that environment's
current `ready` snapshot (the one recorded when `filling` was last
snapshotted — either taken this very iteration, or the `ready` array
inherited from before), after which that environment's accumulator,
ids list and `ready` array are reset to empty; a tick's single
`buffer.add` call is the concatenation of such complete per-environment
rounds, not in general a single environment's round. -/
theorem jointround_flush_per_env (A : Nat) (st : CEState) (a : CETick) (i : Nat) (l : Lane) :
    ((collectiveLaneCore A st a i l).2.ids = a.ids ∧
     (collectiveLaneCore A st a i l).2.blocks = a.blocks) ∨
    (∃ blk, blk ≠ [] ∧
      (collectiveLaneCore A st a i l).2.ids = a.ids ++ blk ∧
      (collectiveLaneCore A st a i l).2.blocks = a.blocks ++ [(l.envId, blk)] ∧
      (((collectiveLaneCore A st a i l).2.snaps = a.snaps ∧
          sortNat blk = sortNat ((st.ready l.envId).filterMap id)) ∨
        (∃ s, (collectiveLaneCore A st a i l).2.snaps = a.snaps ++ [(l.envId, s)] ∧
          sortNat blk = sortNat s)) ∧
      (collectiveLaneCore A st a i l).1.expsToSave l.envId = [] ∧
      (collectiveLaneCore A st a i l).1.bufferIdsToSave l.envId = [] ∧
      (collectiveLaneCore A st a i l).1.ready l.envId = List.replicate A none) := by
  unfold collectiveLaneCore
  dsimp only
  by_cases hfq : (decide (sortNat ((ceFillSnap A st l).1.filterMap id) ≠ []) &&
      decide (sortNat ((ceFillSnap A st l).1.filterMap id) =
        sortNat (cePendSame A st l).2.2)) = true
  · have hparts := hfq
    rw [Bool.and_eq_true, decide_eq_true_eq, decide_eq_true_eq] at hparts
    right
    refine ⟨(cePendSame A st l).2.2, ?_, ?_, ?_, ?_, ?_, ?_, ?_⟩
    · intro hblk
      apply hparts.1
      rw [hparts.2, hblk]
      rfl
    · simp only [hfq]
      simp
    · simp only [hfq]
      simp
    · rcases ceFillSnap_cases A st l with ⟨hn, hr⟩ | ⟨s, hs, hs2⟩
      · left
        constructor
        · simp [hn]
        · rw [← hparts.2, hr]
      · right
        refine ⟨s, ?_, ?_⟩
        · simp [hs]
        · rw [← hparts.2, hs2]
    · simp only [hfq]
      simp [updEnv]
    · simp only [hfq]
      simp [updEnv]
    · simp only [hfq]
      simp [updEnv]
  · left
    simp only [Bool.not_eq_true] at hfq
    constructor <;> (simp only [hfq]; simp)

/-- First lane of a tick on which two one-agent environments both
complete a joint round (environment 0). -/
def jrL0 : Lane := ⟨0, 0, 3, 9, 0, 4, 1, false, false, true, false⟩

/-- Second lane of the same tick (environment 1). -/
def jrL1 : Lane := ⟨1, 0, 5, 8, 0, 6, 1, false, false, true, false⟩

/-- C2 counterexample: with two one-agent environments finishing a
joint round on the same tick, the single `buffer.add` call of that tick
carries the slot ids of both environments, so its id set equals no
single previously snapshotted `ready` set (the run records exactly the
two snapshots `[0]` for environment 0 and `[1]` for environment 1, and
the call's ids are `[0, 1]`). -/
theorem jointround_single_call_two_envs :
    cRunOk (collectiveCollect 2 1 (some 2) none [[jrL0, jrL1]]) = true ∧
    (cRunCalls (collectiveCollect 2 1 (some 2) none [[jrL0, jrL1]])).map
      (fun c => c.map Prod.fst) = [[0, 1]] ∧
    cRunSnaps (collectiveCollect 2 1 (some 2) none [[jrL0, jrL1]]) = [(0, [0]), (1, [1])] ∧
    (∀ s ∈ cRunSnaps (collectiveCollect 2 1 (some 2) none [[jrL0, jrL1]]),
      sortNat ((cRunCalls (collectiveCollect 2 1 (some 2) none [[jrL0, jrL1]])).flatten.map
        Prod.fst) ≠ sortNat s.2) := by decide

/-! ### C8 — collective filling assertion -/

/-- `get?` after `set` at an in-range index. -/
theorem list_get_set_self {α : Type} (xs : List α) (i : Nat) (v : α) (h : i < xs.length) :
    (xs.set i v).get? i = some v := by
  induction xs generalizing i with
  | nil => simp at h
  | cons x rest ih =>
    cases i with
    | zero => rfl
    | succ n => exact ih n (Nat.lt_of_succ_lt_succ h)

/-- C8 (amended): the collective lane loop asserts that the acting
agent's `filling` entry is the empty sentinel before writing it, and a
successful lane step with no turn-boundary signal leaves the entry
non-empty whenever the agent is not already done-marked; hence when a
not-yet-done agent acts on two ticks of the same environment with no
intervening `environment_step`/`explicit_reset` snapshot and no
environment reset, the second step aborts with the `dupFilling`
assertion.  (If the agent is already done-marked, its entry is written
as the sentinel and no assertion fires — see the counterexample.) -/
theorem filling_assert_on_second_turn (A : Nat) (st : CEState) (a a2 : CETick)
    (i j : Nat) (l l2 : Lane)
    (hlt : l.agentId < (st.filling l.envId).length)
    (hsig : (l.envStep || l.explicitReset) = false)
    (hnd : l.envId * A + l.agentId ∉ st.doneAgents l.envId)
    (h2e : l2.envId = l.envId) (h2a : l2.agentId = l.agentId)
    (herr : collectiveLaneErr A st l = none) :
    collectiveLane A st a i l = .ok (collectiveLaneCore A st a i l) ∧
    collectiveLane A (collectiveLaneCore A st a i l).1 a2 j l2 = .error .dupFilling := by
  have hfill : ((collectiveLaneCore A st a i l).1.filling l.envId).get? l.agentId =
      some (some (l.envId * A + l.agentId)) := by
    unfold collectiveLaneCore
    dsimp only
    simp only [updEnv, if_pos rfl]
    unfold ceFillSnap
    dsimp only
    rw [hsig]
    simp only [Bool.false_and, Bool.false_eq_true, if_false]
    rw [if_neg hnd]
    exact list_get_set_self _ _ _ hlt
  refine ⟨?_, ?_⟩
  · unfold collectiveLane
    rw [herr]
  · unfold collectiveLane
    unfold collectiveLaneErr
    rw [h2e, h2a]
    dsimp only
    rw [hfill]

/-- First lane of the done-marked-agent stream: agent 1 acts and the
done flag marks agent 0 (the next agent) as done. -/
def dmT1 : Lane := ⟨0, 1, 3, 9, 0, 4, 1, true, false, false, false⟩

/-- Second lane: the done-marked agent 0 acts (next agent 0). -/
def dmT2 : Lane := ⟨0, 0, 4, 9, 0, 5, 1, false, false, false, false⟩

/-- Third lane: agent 0 acts again with no intervening snapshot. -/
def dmT3 : Lane := ⟨0, 0, 5, 9, 1, 6, 1, false, false, false, false⟩

/-- C8 counterexample: agent 0 of environment 0 acts on two consecutive
ticks with no `environment_step`/`explicit_reset` signal anywhere and
no environment reset, yet the collective collect run completes without
any assertion failure — because agent 0 was done-marked on the first
tick, its `filling` entry is written as the `-1` sentinel rather than
its slot id, so the claimed abort does not occur. -/
theorem filling_assert_skipped_for_done_agent :
    cRunOk (collectiveCollect 1 2 (some 10) none [[dmT1], [dmT2], [dmT3]]) = true ∧
    dmT2.agentId = dmT3.agentId ∧ dmT2.envId = dmT3.envId ∧
    dmT2.envStep = false ∧ dmT2.explicitReset = false ∧
    dmT3.envStep = false ∧ dmT3.explicitReset = false := by decide

/-- First turn of the not-done agent 0 used in the C8 witness. -/
def saT1 : Lane := ⟨0, 0, 3, 9, 1, 5, 1, false, false, false, false⟩

/-- Agent 0 acting again with no intervening snapshot. -/
def saT2 : Lane := ⟨0, 0, 6, 2, 1, 7, 1, false, false, false, false⟩

/-- Witness for C8 (amended): a not-yet-done agent acting twice with no
boundary signal hits the `dupFilling` assertion on its second turn. -/
theorem filling_assert_on_second_turn_w :
    collectiveLane 2 (collectiveLaneCore 2 (initCEState 2) ⟨[], [], [], 0, [], []⟩ 0 saT1).1
      ⟨[], [], [], 0, [], []⟩ 1 saT2 = .error .dupFilling :=
  (filling_assert_on_second_turn 2 (initCEState 2) ⟨[], [], [], 0, [], []⟩
    ⟨[], [], [], 0, [], []⟩ 0 1 saT1 saT2 (by decide) (by decide) (by decide)
    (by decide) (by decide) (by decide)).2

/-- Lane completing environment 0 in the trimming witness. -/
def dtL0 : Lane := ⟨0, 0, 3, 9, 0, 4, 1, true, false, false, false⟩

/-- Lane completing environment 1 in the trimming witness. -/
def dtL1 : Lane := ⟨1, 0, 5, 8, 0, 6, 1, true, false, false, false⟩

/-- Witness for C6: with `n_episode = 1`, two one-agent environments
finishing on the same tick, trimming removes the first surplus lanes in
ascending local order — here both, leaving no ready lanes. -/
theorem deterministic_trimming_w :
    (multiTick 1 (some 1) initMAState ⟨0, 0, [0, 1], []⟩ [dtL0, dtL1]).2.readyEnvIds = [] := by
  have h := deterministic_trimming 1 initMAState ⟨0, 0, [0, 1], []⟩ [dtL0, dtL1] 1 [0]
    (by decide) (by decide)
  rw [h.2.1]
  decide
